import Mathlib

/-!
Shallow embedding of `collector/cluster_health.go` from the
`elasticsearch_exporter` repository: a Prometheus collector that scrapes the
Elasticsearch `/_cluster/health` endpoint and emits metric samples.

Modelling choices:
* Go `float64` metric values are modelled as `ℚ` (all values actually produced
  are integers or 0/1 flags, so no precision is lost).
* The HTTP client is modelled as an oracle `String → GetResult`: given the
  request URL string it returns either a transport error or a response,
  a response carrying its status code and the outcome of JSON-decoding its
  body into a `clusterHealthResponse`.
* Channel emission (`ch <- ...`) is modelled as appending to the returned
  sample list, in program order.
* Wall-clock reads (`time.Now().Unix()`, `time.Since(begun).Seconds()`) are
  passed in as parameters `now` and `dur`.
* Mutation of the collector struct's counters/gauges is modelled by explicit
  state passing: `Collect` returns the updated `ClusterHealth` state.
-/

/-- Modelled from the spec: the `clusterHealthResponse` struct is defined in a
repository file that is not part of `src/`; its fields are reconstructed from
the spec's data model (§3, §6: `cluster_name`, `status`, `timed_out`, and the
ten integer shard/node/task counters) and from the field accesses in
`cluster_health.go`. Go integers are modelled as `Int`. -/
structure clusterHealthResponse where
  ClusterName : String
  Status : String
  TimedOut : Bool
  ActivePrimaryShards : Int
  ActiveShards : Int
  DelayedUnassignedShards : Int
  InitializingShards : Int
  NumberOfDataNodes : Int
  NumberOfInFlightFetch : Int
  NumberOfNodes : Int
  NumberOfPendingTasks : Int
  RelocatingShards : Int
  UnassignedShards : Int
deriving Repr, DecidableEq

/-- Go zero value of `clusterHealthResponse` (what `var chr clusterHealthResponse`
declares): empty strings, `false`, and all-zero integers. -/
def zeroResponse : clusterHealthResponse :=
  { ClusterName := ""
    Status := ""
    TimedOut := false
    ActivePrimaryShards := 0
    ActiveShards := 0
    DelayedUnassignedShards := 0
    InitializingShards := 0
    NumberOfDataNodes := 0
    NumberOfInFlightFetch := 0
    NumberOfNodes := 0
    NumberOfPendingTasks := 0
    RelocatingShards := 0
    UnassignedShards := 0 }

/-- Relevant fields of Go's `net/url.URL` value as used by this collector:
the fetch copies the struct and overwrites `Path`. -/
structure URL where
  Scheme : String
  Host : String
  Path : String
  RawQuery : String
deriving Repr, DecidableEq

/-- Simplified model of `url.URL.String()` sufficient for the URLs this
collector handles (scheme://host/path plus optional query). -/
def URL.toString (u : URL) : String :=
  u.Scheme ++ "://" ++ u.Host ++ u.Path ++
    (if u.RawQuery = "" then "" else "?" ++ u.RawQuery)

/-- Outcome of `c.client.Get(url)` combined with the JSON decode of the
response body: either a transport-level error, or a response with its HTTP
status code and the result of decoding its body. -/
inductive GetResult where
  | err : String → GetResult
  | ok : Nat → Except String clusterHealthResponse → GetResult
deriving Repr

/-- Error taxonomy of `fetchAndDecodeClusterHealth`: transport failure,
non-200 HTTP status (carrying the code), or JSON decode failure. -/
inductive FetchError where
  | transport : String → FetchError
  | httpStatus : Nat → FetchError
  | decode : String → FetchError
deriving Repr, DecidableEq

/-- Prometheus value types used by this collector. -/
inductive ValueType where
  | gauge
  | counter
deriving Repr, DecidableEq

/-- Model of `prometheus.Desc`: fully-qualified name, help text, variable
label names, and constant labels. -/
structure Desc where
  fqName : String
  help : String
  variableLabels : List String
  constLabels : List (String × String)
deriving Repr, DecidableEq

/-- Model of `prometheus.BuildFQName` for nonempty parts: joins
namespace, subsystem and name with underscores. -/
def buildFQName (ns sub name : String) : String :=
  ns ++ "_" ++ sub ++ "_" ++ name

/-- Source constant `namespace = "elasticsearch"` (renamed because
`namespace` is a Lean keyword). -/
def namespaceStr : String := "elasticsearch"

/-- Source constant: the three status colors, in declared order. -/
def colors : List String := ["green", "yellow", "red"]

/-- Source constant: the label schema shared by all scalar health metrics. -/
def defaultClusterHealthLabels : List String := ["cluster"]

/-- Model of the `clusterHealthMetric` struct: a value type, a descriptor and
a pure value-extraction function. -/
structure clusterHealthMetric where
  valueType : ValueType
  Desc : Desc
  Value : clusterHealthResponse → ℚ

/-- Model of the `clusterHealthStatusMetric` struct. The source also declares
a `Labels` field but `NewClusterHealth` never sets it and `Collect` never
reads it, so it is omitted. -/
structure clusterHealthStatusMetric where
  valueType : ValueType
  Desc : Desc
  Value : clusterHealthResponse → String → ℚ

/-- Helper mirroring `prometheus.NewDesc(BuildFQName(namespace, "cluster_health", name), help, defaultClusterHealthLabels, nil)`. -/
def healthDesc (name help : String) : Desc :=
  { fqName := buildFQName namespaceStr "cluster_health" name
    help := help
    variableLabels := defaultClusterHealthLabels
    constLabels := [] }

/-- The eleven scalar metrics built by `NewClusterHealth`, in declared order. -/
def clusterHealthMetrics : List clusterHealthMetric :=
  [ { valueType := ValueType.gauge
      Desc := healthDesc "active_primary_shards"
        "Tthe number of primary shards in your cluster. This is an aggregate total across all indices."
      Value := fun clusterHealth => (clusterHealth.ActivePrimaryShards : ℚ) }
  , { valueType := ValueType.gauge
      Desc := healthDesc "active_shards"
        "Aggregate total of all shards across all indices, which includes replica shards."
      Value := fun clusterHealth => (clusterHealth.ActiveShards : ℚ) }
  , { valueType := ValueType.gauge
      Desc := healthDesc "delayed_unassigned_shards"
        "Shards delayed to reduce reallocation overhead"
      Value := fun clusterHealth => (clusterHealth.DelayedUnassignedShards : ℚ) }
  , { valueType := ValueType.gauge
      Desc := healthDesc "initializing_shards"
        "Count of shards that are being freshly created."
      Value := fun clusterHealth => (clusterHealth.InitializingShards : ℚ) }
  , { valueType := ValueType.gauge
      Desc := healthDesc "number_of_data_nodes"
        "Number of data nodes in the cluster."
      Value := fun clusterHealth => (clusterHealth.NumberOfDataNodes : ℚ) }
  , { valueType := ValueType.gauge
      Desc := healthDesc "number_of_in_flight_fetch"
        "The number of ongoing shard info requests."
      Value := fun clusterHealth => (clusterHealth.NumberOfInFlightFetch : ℚ) }
  , { valueType := ValueType.gauge
      Desc := healthDesc "number_of_nodes"
        "Number of nodes in the cluster."
      Value := fun clusterHealth => (clusterHealth.NumberOfNodes : ℚ) }
  , { valueType := ValueType.gauge
      Desc := healthDesc "number_of_pending_tasks"
        "Cluster level changes which have not yet been executed"
      Value := fun clusterHealth => (clusterHealth.NumberOfPendingTasks : ℚ) }
  , { valueType := ValueType.gauge
      Desc := healthDesc "relocating_shards"
        "The number of shards that are currently moving from one node to another node."
      Value := fun clusterHealth => (clusterHealth.RelocatingShards : ℚ) }
  , { valueType := ValueType.gauge
      Desc := healthDesc "timed_out"
        "Number of cluster health checks timed out"
      Value := fun clusterHealth => if clusterHealth.TimedOut then 1 else 0 }
  , { valueType := ValueType.gauge
      Desc := healthDesc "unassigned_shards"
        "The number of shards that exist in the cluster state, but cannot be found in the cluster itself."
      Value := fun clusterHealth => (clusterHealth.UnassignedShards : ℚ) } ]

/-- The status metric built by `NewClusterHealth`: one-hot over colors. -/
def statusMetric : clusterHealthStatusMetric :=
  { valueType := ValueType.gauge
    Desc :=
      { fqName := buildFQName namespaceStr "cluster_health" "status"
        help := "Whether all primary and replica shards are allocated."
        variableLabels := ["cluster", "color"]
        constLabels := [] }
    Value := fun clusterHealth color => if clusterHealth.Status = color then 1 else 0 }

/-- Mutable state of the `ClusterHealth` collector: the configured base URL
and the five meta-metric values. The `logger`, `client` and the immutable
descriptor lists are not part of the mutable state. -/
structure ClusterHealth where
  url : URL
  totalScrapesMetric : ℚ
  totalScrapeErrorsMetric : ℚ
  lastScrapeErrorMetric : ℚ
  lastScrapeTimestampMetric : ℚ
  lastScrapeDurationSecondsMetric : ℚ
deriving Repr, DecidableEq

/-- The URL actually requested by a fetch: a copy of the base URL with its
path replaced by the fixed health-endpoint path (`u := *c.url;
u.Path = "/_cluster/health"`). -/
def requestTarget (base : URL) : URL :=
  { base with Path := "/_cluster/health" }

/-- Model of `fetchAndDecodeClusterHealth`: build the target URL, issue the
GET via the oracle, check the status code, decode the body. Every failure
path returns the still-zero `chr` together with an error. -/
def ClusterHealth.fetchAndDecodeClusterHealth (c : ClusterHealth)
    (get : String → GetResult) : clusterHealthResponse × Option FetchError :=
  let chr := zeroResponse
  let u := requestTarget c.url
  match get (URL.toString u) with
  | GetResult.err e => (chr, some (FetchError.transport e))
  | GetResult.ok code body =>
    if code ≠ 200 then
      (chr, some (FetchError.httpStatus code))
    else
      match body with
      | Except.error e => (chr, some (FetchError.decode e))
      | Except.ok chr2 => (chr2, none)

/-- Model of `Describe`: emits the eleven scalar descriptors then the status
descriptor. Returns the (unchanged) collector state to make explicit that
`Describe` performs no mutation and no fetch. -/
def ClusterHealth.Describe (c : ClusterHealth) : ClusterHealth × List Desc :=
  (c, clusterHealthMetrics.map (fun m => m.Desc) ++ [statusMetric.Desc])

/-- One emitted metric sample (`prometheus.MustNewConstMetric` /
a meta-metric's own `Collect`): descriptor, value type, variable label
values, value. -/
structure Sample where
  desc : Desc
  valueType : ValueType
  labelValues : List String
  value : ℚ
deriving Repr, DecidableEq

/-- Descriptor of a meta-metric built from `CounterOpts`/`GaugeOpts` with
namespace `elasticsearch`, subsystem `cluster_health`, and the target URL as
a constant label. -/
def metaDesc (u : URL) (name help : String) : Desc :=
  { fqName := buildFQName namespaceStr "cluster_health" name
    help := help
    variableLabels := []
    constLabels := [("url", URL.toString u)] }

/-- Descriptor of `totalScrapesMetric`. -/
def scrapesTotalDesc (u : URL) : Desc :=
  metaDesc u "scrapes_total"
    "Total number of times ElasticSearch cluster health was scraped for metrics."

/-- Descriptor of `totalScrapeErrorsMetric`. -/
def scrapeErrorsTotalDesc (u : URL) : Desc :=
  metaDesc u "scrape_errors_total"
    "Total number of times an error occured scraping ElasticSearch cluster health."

/-- Descriptor of `lastScrapeErrorMetric`. -/
def lastScrapeErrorDesc (u : URL) : Desc :=
  metaDesc u "last_scrape_error"
    "Whether the last scrape of metrics from ElasticSearch cluster health resulted in an error (1 for error, 0 for success)."

/-- Descriptor of `lastScrapeTimestampMetric`. -/
def lastScrapeTimestampDesc (u : URL) : Desc :=
  metaDesc u "last_scrape_timestamp"
    "Number of seconds since 1970 since last scrape from ElasticSearch cluster health."

/-- Descriptor of `lastScrapeDurationSecondsMetric`. -/
def lastScrapeDurationSecondsDesc (u : URL) : Desc :=
  metaDesc u "last_scrape_duration_seconds"
    "Duration of the last scrape from ElasticSearch cluster health."

/-- The eleven scalar samples emitted by one `Collect` pass over a record:
`MustNewConstMetric(metric.Desc, metric.Type, metric.Value(chr), chr.ClusterName)`
for each metric in declared order. -/
def scalarSamples (chr : clusterHealthResponse) : List Sample :=
  clusterHealthMetrics.map (fun metric =>
    { desc := metric.Desc
      valueType := metric.valueType
      labelValues := [chr.ClusterName]
      value := metric.Value chr })

/-- The three status samples emitted by one `Collect` pass over a record:
one per color in declared order, value 1 iff the record's status equals the
color. -/
def statusSamples (chr : clusterHealthResponse) : List Sample :=
  colors.map (fun color =>
    { desc := statusMetric.Desc
      valueType := statusMetric.valueType
      labelValues := [chr.ClusterName, color]
      value := statusMetric.Value chr color })

/-- Model of `Collect`. Parameters `now` (the `time.Now().Unix()` read) and
`dur` (the `time.Since(begun).Seconds()` read) stand for the wall-clock
reads. Steps, in source order: increment the scrape counter; fetch; on
error bump the error counter and set the error flag; emit the eleven scalar
samples, the three status samples, the two counters' current values, and
the three gauges after setting them. Returns the updated collector state
and the emitted samples in emission order. -/
def ClusterHealth.Collect (c : ClusterHealth) (get : String → GetResult)
    (now : Int) (dur : ℚ) : ClusterHealth × List Sample :=
  let c1 := { c with totalScrapesMetric := c.totalScrapesMetric + 1 }
  let fetched := ClusterHealth.fetchAndDecodeClusterHealth c1 get
  let chr := fetched.1
  let scrapeError : ℚ := if fetched.2.isSome then 1 else 0
  let c2 :=
    if fetched.2.isSome then
      { c1 with totalScrapeErrorsMetric := c1.totalScrapeErrorsMetric + 1 }
    else c1
  let c3 :=
    { c2 with
      lastScrapeErrorMetric := scrapeError
      lastScrapeTimestampMetric := (now : ℚ)
      lastScrapeDurationSecondsMetric := dur }
  (c3,
    scalarSamples chr ++ statusSamples chr ++
    [ { desc := scrapesTotalDesc c.url, valueType := ValueType.counter
        labelValues := [], value := c2.totalScrapesMetric }
    , { desc := scrapeErrorsTotalDesc c.url, valueType := ValueType.counter
        labelValues := [], value := c2.totalScrapeErrorsMetric }
    , { desc := lastScrapeErrorDesc c.url, valueType := ValueType.gauge
        labelValues := [], value := scrapeError }
    , { desc := lastScrapeTimestampDesc c.url, valueType := ValueType.gauge
        labelValues := [], value := (now : ℚ) }
    , { desc := lastScrapeDurationSecondsDesc c.url, valueType := ValueType.gauge
        labelValues := [], value := dur } ])

/-- Shorthand for the health record a fetch produced (first component of
`fetchAndDecodeClusterHealth`). -/
def fetchedRecord (c : ClusterHealth) (get : String → GetResult) :
    clusterHealthResponse :=
  (ClusterHealth.fetchAndDecodeClusterHealth c get).1

/-- Helper: whenever the fetch reports an error, the record it returns is the
zero value (every failure path of `fetchAndDecodeClusterHealth` returns the
still-untouched `chr`). -/
theorem fetch_error_imp_zeroResponse (c : ClusterHealth)
    (get : String → GetResult)
    (h : (ClusterHealth.fetchAndDecodeClusterHealth c get).2.isSome = true) :
    (ClusterHealth.fetchAndDecodeClusterHealth c get).1 = zeroResponse := by
  unfold ClusterHealth.fetchAndDecodeClusterHealth at h ⊢
  cases hg : get (URL.toString (requestTarget c.url)) with
  | err e => simp [hg]
  | ok code body =>
    by_cases hc : code = 200
    · subst hc
      cases body with
      | error e => simp [hg]
      | ok chr2 => simp [hg] at h
    · simp [hg, hc]

/-- Helper: a fetch succeeds with record `chr2` exactly when the oracle
returned status 200 and a successful decode of `chr2`. -/
theorem fetch_ok_iff (c : ClusterHealth) (get : String → GetResult)
    (chr2 : clusterHealthResponse) :
    ClusterHealth.fetchAndDecodeClusterHealth c get = (chr2, none) ↔
      get (URL.toString (requestTarget c.url)) = GetResult.ok 200 (Except.ok chr2) := by
  unfold ClusterHealth.fetchAndDecodeClusterHealth
  cases hg : get (URL.toString (requestTarget c.url)) with
  | err e => simp [hg]
  | ok code body =>
    by_cases hc : code = 200
    · subst hc
      cases body with
      | error e => simp [hg]
      | ok chr3 =>
        simp only [hg, ne_eq, not_true_eq_false, if_false, ite_false,
          reduceIte, Prod.mk.injEq, GetResult.ok.injEq, Except.ok.injEq,
          true_and, and_true, eq_comm]
    · simp [hg, hc]

/-- Concrete base URL used by the witnesses. -/
def url0 : URL :=
  { Scheme := "http", Host := "localhost:9200", Path := "/", RawQuery := "" }

/-- Concrete collector state used by the witnesses. -/
def c0 : ClusterHealth :=
  { url := url0
    totalScrapesMetric := 0
    totalScrapeErrorsMetric := 0
    lastScrapeErrorMetric := 0
    lastScrapeTimestampMetric := 0
    lastScrapeDurationSecondsMetric := 0 }

/-- Concrete healthy record used by the witnesses (spec Scenario A). -/
def chrGreen : clusterHealthResponse :=
  { zeroResponse with
    ClusterName := "es1"
    Status := "green"
    ActivePrimaryShards := 5
    ActiveShards := 10 }

/-- Oracle: the endpoint answers 200 with a body decoding to `chrGreen`. -/
def getGreen : String → GetResult :=
  fun _ => GetResult.ok 200 (Except.ok chrGreen)

/-- Oracle: the transport fails. -/
def getFail : String → GetResult :=
  fun _ => GetResult.err "connection refused"

/-- Oracle: the endpoint answers 200 with a decodable body whose status is
the unrecognized string purple. -/
def getPurple : String → GetResult :=
  fun _ => GetResult.ok 200 (Except.ok
    { zeroResponse with
      ClusterName := "es1"
      Status := "purple" })

/-- Oracle: the endpoint answers 500 with a body that would decode fine. -/
def get500 : String → GetResult :=
  fun _ => GetResult.ok 500 (Except.ok chrGreen)

/-- Helper: the fetch reads only the collector's URL, so overwriting the
scrape counter (as `Collect` does before fetching) does not affect it. -/
theorem fetch_ignores_counters (c : ClusterHealth) (get : String → GetResult)
    (x : ℚ) :
    ClusterHealth.fetchAndDecodeClusterHealth
        { c with totalScrapesMetric := x } get
      = ClusterHealth.fetchAndDecodeClusterHealth c get := rfl

/-- Helper: there are exactly eleven scalar samples per scrape. -/
theorem scalarSamples_length (chr : clusterHealthResponse) :
    (scalarSamples chr).length = 11 := by
  simp [scalarSamples, clusterHealthMetrics]

/-- Helper: there are exactly three status samples per scrape. -/
theorem statusSamples_length (chr : clusterHealthResponse) :
    (statusSamples chr).length = 3 := by
  simp [statusSamples, colors]

/-- Helper: closed form of the sample list emitted by `Collect`: the eleven
scalar samples over the fetched record, the three status samples, then the
five meta-metric samples with their post-update values. -/
theorem Collect_snd_eq (c : ClusterHealth) (get : String → GetResult)
    (now : Int) (dur : ℚ) :
    (ClusterHealth.Collect c get now dur).2
      = scalarSamples (fetchedRecord c get) ++ statusSamples (fetchedRecord c get)
        ++ [ { desc := scrapesTotalDesc c.url, valueType := ValueType.counter
               labelValues := [], value := c.totalScrapesMetric + 1 }
           , { desc := scrapeErrorsTotalDesc c.url, valueType := ValueType.counter
               labelValues := []
               value :=
                 if (ClusterHealth.fetchAndDecodeClusterHealth c get).2.isSome
                 then c.totalScrapeErrorsMetric + 1 else c.totalScrapeErrorsMetric }
           , { desc := lastScrapeErrorDesc c.url, valueType := ValueType.gauge
               labelValues := []
               value :=
                 if (ClusterHealth.fetchAndDecodeClusterHealth c get).2.isSome
                 then 1 else 0 }
           , { desc := lastScrapeTimestampDesc c.url, valueType := ValueType.gauge
               labelValues := [], value := (now : ℚ) }
           , { desc := lastScrapeDurationSecondsDesc c.url, valueType := ValueType.gauge
               labelValues := [], value := dur } ] := by
  simp only [ClusterHealth.Collect, fetchedRecord, fetch_ignores_counters]
  by_cases h : (ClusterHealth.fetchAndDecodeClusterHealth c get).2.isSome = true <;>
    simp [h]

/-- Helper: closed form of the collector state after one `Collect`. -/
theorem Collect_fst_eq (c : ClusterHealth) (get : String → GetResult)
    (now : Int) (dur : ℚ) :
    (ClusterHealth.Collect c get now dur).1
      = { url := c.url
          totalScrapesMetric := c.totalScrapesMetric + 1
          totalScrapeErrorsMetric :=
            if (ClusterHealth.fetchAndDecodeClusterHealth c get).2.isSome
            then c.totalScrapeErrorsMetric + 1 else c.totalScrapeErrorsMetric
          lastScrapeErrorMetric :=
            if (ClusterHealth.fetchAndDecodeClusterHealth c get).2.isSome
            then 1 else 0
          lastScrapeTimestampMetric := (now : ℚ)
          lastScrapeDurationSecondsMetric := dur } := by
  simp only [ClusterHealth.Collect, fetch_ignores_counters]
  by_cases h : (ClusterHealth.fetchAndDecodeClusterHealth c get).2.isSome = true <;>
    simp [h]

/-- Helper: when the record's status is one of the three colors, the status
values over the colors sum to one. -/
theorem status_sum_one (chr : clusterHealthResponse) (h : chr.Status ∈ colors) :
    (colors.map (statusMetric.Value chr)).sum = 1 := by
  simp only [colors, List.mem_cons, List.not_mem_nil, or_false] at h
  rcases h with h | h | h <;> simp [colors, statusMetric, h]

/-- Helper: when the record's status is none of the three colors (in
particular the empty status of the zero record), the status values over the
colors sum to zero. -/
theorem status_sum_zero (chr : clusterHealthResponse) (h : chr.Status ∉ colors) :
    (colors.map (statusMetric.Value chr)).sum = 0 := by
  simp only [colors, List.mem_cons, List.not_mem_nil, or_false, not_or] at h
  obtain ⟨h1, h2, h3⟩ := h
  simp [colors, statusMetric, h1, h2, h3]

/-- C5: every `Collect` call increments the total-scrapes counter by exactly
one, unconditionally: the increment is applied before the fetch is
attempted, so the call is counted whether the fetch fails or succeeds. -/
theorem C5_scrapes_total_increments_by_one (c : ClusterHealth)
    (get : String → GetResult) (now : Int) (dur : ℚ) :
    (ClusterHealth.Collect c get now dur).1.totalScrapesMetric
      = c.totalScrapesMetric + 1 := by
  rw [Collect_fst_eq]

/-- C6: the scrape-errors counter increases by exactly one when and only
when the fetch fails (it is unchanged on success), and the last-scrape-error
gauge ends in 0 or 1, equal to 1 exactly when this call's fetch failed. -/
theorem C6_error_counter_and_flag (c : ClusterHealth)
    (get : String → GetResult) (now : Int) (dur : ℚ) :
    ((ClusterHealth.Collect c get now dur).1.totalScrapeErrorsMetric
        = if (ClusterHealth.fetchAndDecodeClusterHealth c get).2.isSome
          then c.totalScrapeErrorsMetric + 1 else c.totalScrapeErrorsMetric)
  ∧ ((ClusterHealth.Collect c get now dur).1.lastScrapeErrorMetric = 0 ∨
     (ClusterHealth.Collect c get now dur).1.lastScrapeErrorMetric = 1)
  ∧ ((ClusterHealth.Collect c get now dur).1.lastScrapeErrorMetric = 1 ↔
      (ClusterHealth.fetchAndDecodeClusterHealth c get).2.isSome = true) := by
  rw [Collect_fst_eq]
  by_cases h : (ClusterHealth.fetchAndDecodeClusterHealth c get).2.isSome = true <;>
    simp [h]

/-- Helper: the fixed descriptor list advertised by `Describe` has twelve
entries. -/
theorem describeList_length :
    (clusterHealthMetrics.map (fun m => m.Desc) ++ [statusMetric.Desc]).length = 12 := by
  decide

/-- Helper: the fixed descriptor list advertised by `Describe` has no
duplicate descriptor. -/
theorem describeList_nodup :
    (clusterHealthMetrics.map (fun m => m.Desc) ++ [statusMetric.Desc]).Nodup := by
  decide

/-- C7: `Describe` emits exactly 12 descriptors (the 11 scalar ones in
declared order, then the status one), each exactly once, leaves the
collector state untouched, performs no fetch (its model takes no HTTP
oracle), and repeated calls yield the identical descriptor sequence. -/
theorem C7_describe_twelve_descriptors (c : ClusterHealth) :
    (ClusterHealth.Describe c).1 = c
  ∧ (ClusterHealth.Describe c).2.length = 12
  ∧ (ClusterHealth.Describe c).2
      = clusterHealthMetrics.map (fun m => m.Desc) ++ [statusMetric.Desc]
  ∧ (ClusterHealth.Describe c).2.Nodup
  ∧ (∀ c2 : ClusterHealth, (ClusterHealth.Describe c2).2 = (ClusterHealth.Describe c).2) :=
  ⟨rfl, describeList_length, rfl, describeList_nodup, fun _ => rfl⟩

/-- C9: the fetch's request target is a copy of the configured base URL with
only the path replaced by the fixed health path; the collector's stored base
URL is unchanged by `Collect`, and the fetch consults the HTTP client only
at that one target URL. -/
theorem C9_url_copied_not_mutated (c : ClusterHealth)
    (get : String → GetResult) (now : Int) (dur : ℚ) :
    requestTarget c.url
      = { Scheme := c.url.Scheme, Host := c.url.Host,
          Path := "/_cluster/health", RawQuery := c.url.RawQuery }
  ∧ (ClusterHealth.Collect c get now dur).1.url = c.url
  ∧ (∀ get2 : String → GetResult,
      get2 (URL.toString (requestTarget c.url))
          = get (URL.toString (requestTarget c.url)) →
      ClusterHealth.fetchAndDecodeClusterHealth c get2
        = ClusterHealth.fetchAndDecodeClusterHealth c get) := by
  refine ⟨rfl, by rw [Collect_fst_eq], fun get2 h2 => ?_⟩
  simp only [ClusterHealth.fetchAndDecodeClusterHealth]
  rw [h2]

/-- Witness for C9 at a concrete collector: an oracle that agrees with
`getGreen` on the single target URL (and differs elsewhere) produces the
identical fetch outcome. -/
theorem C9_witness :
    requestTarget c0.url
      = { Scheme := c0.url.Scheme, Host := c0.url.Host,
          Path := "/_cluster/health", RawQuery := c0.url.RawQuery }
  ∧ (ClusterHealth.Collect c0 getGreen 7 1).1.url = c0.url
  ∧ ClusterHealth.fetchAndDecodeClusterHealth c0
        (fun s => if s = "http://localhost:9200/_cluster/health"
                  then GetResult.ok 200 (Except.ok chrGreen)
                  else GetResult.err "off-target")
      = ClusterHealth.fetchAndDecodeClusterHealth c0 getGreen :=
  ⟨(C9_url_copied_not_mutated c0 getGreen 7 1).1,
   (C9_url_copied_not_mutated c0 getGreen 7 1).2.1,
   (C9_url_copied_not_mutated c0 getGreen 7 1).2.2
     (fun s => if s = "http://localhost:9200/_cluster/health"
               then GetResult.ok 200 (Except.ok chrGreen)
               else GetResult.err "off-target") rfl⟩

/-- C10: when the response status code is not 200 the fetch fails with an
error carrying that code without consulting the body's decode result at all
(the same outcome results whatever the body holds), so a decode error can
only arise from a 200 response. -/
theorem C10_non200_skips_decode (c : ClusterHealth) (get : String → GetResult)
    (code : Nat) (body : Except String clusterHealthResponse)
    (hr : get (URL.toString (requestTarget c.url)) = GetResult.ok code body) :
    (code ≠ 200 →
      ClusterHealth.fetchAndDecodeClusterHealth c get
        = (zeroResponse, some (FetchError.httpStatus code)))
  ∧ (∀ e, (ClusterHealth.fetchAndDecodeClusterHealth c get).2
        = some (FetchError.decode e) → code = 200) := by
  constructor
  · intro hc
    unfold ClusterHealth.fetchAndDecodeClusterHealth
    simp [hr, hc]
  · intro e he
    by_contra hc
    have h1 : ClusterHealth.fetchAndDecodeClusterHealth c get
        = (zeroResponse, some (FetchError.httpStatus code)) := by
      unfold ClusterHealth.fetchAndDecodeClusterHealth
      simp [hr, hc]
    rw [h1] at he
    simp at he

/-- Witness for C10: a 500 response whose body would decode to a perfectly
valid health record still yields only the HTTP-status error. -/
theorem C10_witness :
    get500 (URL.toString (requestTarget c0.url))
        = GetResult.ok 500 (Except.ok chrGreen)
  ∧ ClusterHealth.fetchAndDecodeClusterHealth c0 get500
      = (zeroResponse, some (FetchError.httpStatus 500)) :=
  ⟨rfl,
   (C10_non200_skips_decode c0 get500 500 (Except.ok chrGreen) rfl).1 (by decide)⟩

/-- C1: when the fetched record's status is one of green, yellow, red,
`Collect` emits for every color a status sample whose value is the status
metric's value function, that function is 1 at the record's own color and 0
at every other color, and its sum over the three colors is exactly 1. -/
theorem C1_status_one_hot (c : ClusterHealth) (get : String → GetResult)
    (now : Int) (dur : ℚ)
    (h : (fetchedRecord c get).Status ∈ colors) :
    (∀ color ∈ colors,
      ({ desc := statusMetric.Desc
         valueType := statusMetric.valueType
         labelValues := [(fetchedRecord c get).ClusterName, color]
         value := statusMetric.Value (fetchedRecord c get) color } : Sample)
        ∈ (ClusterHealth.Collect c get now dur).2)
  ∧ statusMetric.Value (fetchedRecord c get) (fetchedRecord c get).Status = 1
  ∧ (∀ color ∈ colors, color ≠ (fetchedRecord c get).Status →
      statusMetric.Value (fetchedRecord c get) color = 0)
  ∧ (colors.map (statusMetric.Value (fetchedRecord c get))).sum = 1 := by
  refine ⟨?_, ?_, ?_, status_sum_one _ h⟩
  · intro color hc
    rw [Collect_snd_eq]
    refine List.mem_append_left _ (List.mem_append_right _ ?_)
    simp only [statusSamples]
    exact List.mem_map_of_mem _ hc
  · simp [statusMetric]
  · intro color hc hne
    simp [statusMetric, Ne.symm hne]

/-- Witness for C1: scraping a healthy cluster whose status is green
satisfies the hypothesis, yields status value 1 at green and one-hot sum 1. -/
theorem C1_witness :
    (fetchedRecord c0 getGreen).Status ∈ colors
  ∧ statusMetric.Value (fetchedRecord c0 getGreen) (fetchedRecord c0 getGreen).Status = 1
  ∧ (colors.map (statusMetric.Value (fetchedRecord c0 getGreen))).sum = 1 :=
  ⟨by decide, (C1_status_one_hot c0 getGreen 7 1 (by decide)).2.1,
   (C1_status_one_hot c0 getGreen 7 1 (by decide)).2.2.2⟩

/-- C2 counterexample: a scrape that succeeds (no fetch error) but whose
body carries the unrecognized status string purple sums to 0, not 1, over
the three known colors — the claim's "for every successful scrape" is too
strong, since the code never validates the decoded status string. -/
theorem C2_counterexample :
    (ClusterHealth.fetchAndDecodeClusterHealth c0 getPurple).2 = none
  ∧ (colors.map (statusMetric.Value (fetchedRecord c0 getPurple))).sum ≠ 1 := by
  constructor
  · decide
  · have h : (fetchedRecord c0 getPurple).Status ∉ colors := by decide
    rw [status_sum_zero _ h]
    norm_num

/-- C2 (amended): for every successful scrape whose decoded status is one of
the three known colors the status values sum to exactly 1; for every failed
scrape they sum to 0. -/
theorem C2_one_hot_sum (c : ClusterHealth) (get : String → GetResult) :
    ((ClusterHealth.fetchAndDecodeClusterHealth c get).2 = none →
      (fetchedRecord c get).Status ∈ colors →
      (colors.map (statusMetric.Value (fetchedRecord c get))).sum = 1)
  ∧ ((ClusterHealth.fetchAndDecodeClusterHealth c get).2.isSome = true →
      (colors.map (statusMetric.Value (fetchedRecord c get))).sum = 0) := by
  constructor
  · intro _ h
    exact status_sum_one _ h
  · intro h
    rw [show fetchedRecord c get = zeroResponse from
          fetch_error_imp_zeroResponse c get h]
    exact status_sum_zero _ (by decide)

/-- Witness for C2 (amended): a green scrape sums to 1; a scrape whose
transport fails sums to 0. -/
theorem C2_witness :
    ((ClusterHealth.fetchAndDecodeClusterHealth c0 getGreen).2 = none
      ∧ (fetchedRecord c0 getGreen).Status ∈ colors
      ∧ (colors.map (statusMetric.Value (fetchedRecord c0 getGreen))).sum = 1)
  ∧ ((ClusterHealth.fetchAndDecodeClusterHealth c0 getFail).2.isSome = true
      ∧ (colors.map (statusMetric.Value (fetchedRecord c0 getFail))).sum = 0) :=
  ⟨⟨by decide, by decide,
    (C2_one_hot_sum c0 getGreen).1 (by decide) (by decide)⟩,
   ⟨by decide, (C2_one_hot_sum c0 getFail).2 (by decide)⟩⟩

/-- C3: every failing fetch (transport error, non-200 status, or decode
error) returns the zero-valued record alongside its error, and every
successful fetch returns the decoded record with no error. -/
theorem C3_fetch_zero_on_failure (c : ClusterHealth) (get : String → GetResult) :
    (∀ e, (ClusterHealth.fetchAndDecodeClusterHealth c get).2 = some e →
      (ClusterHealth.fetchAndDecodeClusterHealth c get).1 = zeroResponse)
  ∧ (∀ chr2, get (URL.toString (requestTarget c.url))
        = GetResult.ok 200 (Except.ok chr2) →
      ClusterHealth.fetchAndDecodeClusterHealth c get = (chr2, none)) := by
  constructor
  · intro e he
    exact fetch_error_imp_zeroResponse c get (by simp [he])
  · intro chr2 h2
    exact (fetch_ok_iff c get chr2).mpr h2

/-- Witness for C3: a refused connection yields the zero record plus a
transport error; a 200 response decoding to `chrGreen` yields exactly
`(chrGreen, none)`. -/
theorem C3_witness :
    (ClusterHealth.fetchAndDecodeClusterHealth c0 getFail).2
        = some (FetchError.transport "connection refused")
  ∧ (ClusterHealth.fetchAndDecodeClusterHealth c0 getFail).1 = zeroResponse
  ∧ getGreen (URL.toString (requestTarget c0.url))
        = GetResult.ok 200 (Except.ok chrGreen)
  ∧ ClusterHealth.fetchAndDecodeClusterHealth c0 getGreen = (chrGreen, none) :=
  ⟨by decide,
   (C3_fetch_zero_on_failure c0 getFail).1
     (FetchError.transport "connection refused") (by decide),
   rfl,
   (C3_fetch_zero_on_failure c0 getGreen).2 chrGreen rfl⟩

/-- C4: when the fetch fails, `Collect` does not return early: it still
emits all 19 samples, the first 11 being the scalar samples with value 0
(including 0 for timed_out) under the empty cluster label, and the next 3
being the status samples with value 0. -/
theorem C4_zero_emission_on_failure (c : ClusterHealth)
    (get : String → GetResult) (now : Int) (dur : ℚ)
    (h : (ClusterHealth.fetchAndDecodeClusterHealth c get).2.isSome = true) :
    (ClusterHealth.Collect c get now dur).2.length = 19
  ∧ (ClusterHealth.Collect c get now dur).2.take 11
      = clusterHealthMetrics.map (fun m =>
          { desc := m.Desc, valueType := m.valueType
            labelValues := [""], value := 0 })
  ∧ ((ClusterHealth.Collect c get now dur).2.drop 11).take 3
      = colors.map (fun color =>
          { desc := statusMetric.Desc, valueType := statusMetric.valueType
            labelValues := ["", color], value := 0 }) := by
  have hz : fetchedRecord c get = zeroResponse :=
    fetch_error_imp_zeroResponse c get h
  refine ⟨?_, ?_, ?_⟩
  · rw [Collect_snd_eq]
    simp [scalarSamples, statusSamples, clusterHealthMetrics, colors]
  · rw [Collect_snd_eq, hz, List.append_assoc,
        List.take_left' (scalarSamples_length zeroResponse)]
    simp [scalarSamples, clusterHealthMetrics, zeroResponse]
  · rw [Collect_snd_eq, hz, List.append_assoc,
        List.drop_left' (scalarSamples_length zeroResponse),
        List.take_left' (statusSamples_length zeroResponse)]
    simp [statusSamples, colors, statusMetric, zeroResponse]

/-- Witness for C4: a failing transport still produces all 19 samples, the
scalar block zeroed with empty cluster label and the status block zeroed. -/
theorem C4_witness :
    (ClusterHealth.fetchAndDecodeClusterHealth c0 getFail).2.isSome = true
  ∧ (ClusterHealth.Collect c0 getFail 7 1).2.length = 19
  ∧ (ClusterHealth.Collect c0 getFail 7 1).2.take 11
      = clusterHealthMetrics.map (fun m =>
          { desc := m.Desc, valueType := m.valueType
            labelValues := [""], value := 0 })
  ∧ ((ClusterHealth.Collect c0 getFail 7 1).2.drop 11).take 3
      = colors.map (fun color =>
          { desc := statusMetric.Desc, valueType := statusMetric.valueType
            labelValues := ["", color], value := 0 }) :=
  ⟨by decide,
   (C4_zero_emission_on_failure c0 getFail 7 1 (by decide)).1,
   (C4_zero_emission_on_failure c0 getFail 7 1 (by decide)).2.1,
   (C4_zero_emission_on_failure c0 getFail 7 1 (by decide)).2.2⟩

/-- C8: the emission order of one `Collect` call is fixed: the eleven scalar
descriptors in declared order, then three status samples in color order
green, yellow, red, then the five meta-metrics in declared order; and the
descriptor sequence is identical across runs over the same fetched record. -/
theorem C8_emission_order (c : ClusterHealth) (get : String → GetResult)
    (now : Int) (dur : ℚ) :
    (ClusterHealth.Collect c get now dur).2.map Sample.desc
      = clusterHealthMetrics.map (fun m => m.Desc)
        ++ [statusMetric.Desc, statusMetric.Desc, statusMetric.Desc]
        ++ [scrapesTotalDesc c.url, scrapeErrorsTotalDesc c.url,
            lastScrapeErrorDesc c.url, lastScrapeTimestampDesc c.url,
            lastScrapeDurationSecondsDesc c.url]
  ∧ ((ClusterHealth.Collect c get now dur).2.drop 11).take 3
      = statusSamples (fetchedRecord c get)
  ∧ (∀ now2 dur2, (ClusterHealth.Collect c get now2 dur2).2.map Sample.desc
      = (ClusterHealth.Collect c get now dur).2.map Sample.desc) := by
  refine ⟨?_, ?_, fun now2 dur2 => ?_⟩
  · rw [Collect_snd_eq]
    simp [scalarSamples, statusSamples, clusterHealthMetrics, colors]
  · rw [Collect_snd_eq, List.append_assoc,
        List.drop_left' (scalarSamples_length _),
        List.take_left' (statusSamples_length _)]
  · rw [Collect_snd_eq, Collect_snd_eq]
    simp [scalarSamples, statusSamples, clusterHealthMetrics, colors]
